import Mathlib

/-!
Shallow embedding of the SGR (Structured Generation & Repair) core of the
AI-Calendar-Assistant repository:

* `src/app/models.py`        — pydantic data model (`CalendarEvent` and friends);
* `src/app/utils/repair.py`  — `normalize_event`, `_ensure_timezone`,
  `_shift_to_free_slot`, `_has_conflict`;
* `src/app/sgr.py`           — `SGRController.commit`, `_parse_slot`,
  `_coerce_datetime`, `_busy_slots`;
* `src/app/services/google_calendar.py` — `_unique_reminders`.

Modelling conventions:

* a Python `datetime` is `PyDateTime`: a wall-clock value in whole minutes
  together with an optional fixed UTC offset (`tz`).  The host IANA zone
  database (`zoneinfo`) is an external collaborator and is passed in as a
  parameter `db : String → Option Int` mapping a zone name to its offset in
  minutes (`none` models `ZoneInfoNotFoundError`).  Zones are modelled as
  fixed offsets; the claims under study do not depend on DST transitions.
* aware datetimes compare by instant (`wall - offset`), naive ones by wall
  clock; `toInstant` with `getD 0` realises both cases uniformly (the code
  never compares a naive with an aware value on the paths modelled here).
* fallible Python code (pydantic validation, zone lookup) returns `Except`;
  `isoformat` parsing (`datetime.fromisoformat`) is an external stdlib
  routine and is likewise passed in as a parameter
  `parse : String → Option PyDateTime`.
* Python truthiness on strings (`a or b` skipping `""`) is `strTruthy`.
-/

structure PyDateTime where
  wall : Int
  tz : Option Int
  deriving DecidableEq

def PyDateTime.toInstant (d : PyDateTime) : Int :=
  d.wall - d.tz.getD 0

def addMinutes (d : PyDateTime) (n : Int) : PyDateTime :=
  ⟨d.wall + n, d.tz⟩

inductive ReminderMethod where
  | popup
  | email
  deriving DecidableEq

structure Attendee where
  email : String
  optional : Bool
  deriving DecidableEq

structure Reminder where
  method : ReminderMethod
  minutes_before : Int
  deriving DecidableEq

def Reminder.default : Reminder := ⟨.popup, 15⟩

structure Recurrence where
  rrule : Option String
  deriving DecidableEq

structure CalendarEvent where
  title : String
  description : Option String
  start : PyDateTime
  «end» : PyDateTime
  timezone : String
  location : Option String
  attendees : List Attendee
  reminders : List Reminder
  recurrence : Option Recurrence
  source : Option String
  deriving DecidableEq

/-- Constructing a `CalendarEvent` through pydantic: the only field validator
is `_end_after_start` (src/app/models.py line 30), which raises a
`ValidationError` when `end <= start`.  `title : str` carries no constraint,
so pydantic accepts any string for it, the empty string included. -/
def mkCalendarEvent (title : String) (description : Option String)
    (start «end» : PyDateTime) (timezone : String) (location : Option String)
    (attendees : List Attendee) (reminders : List Reminder)
    (recurrence : Option Recurrence) (source : Option String) :
    Except String CalendarEvent :=
  if «end».toInstant ≤ start.toInstant then .error "end must be after start"
  else .ok ⟨title, description, start, «end», timezone, location, attendees,
            reminders, recurrence, source⟩

/-- `EventDraft` (src/services/api/models.py): same shape, optional timezone,
no end-after-start validation.  `normalize_event` accepts either a draft or an
event (`EventLike`); an event is read through the draft shape with
`timezone` wrapped in `some` (see `CalendarEvent.toDraft`).  Attendee,
reminder and recurrence entries are modelled already in their coerced form
(`model_validate` on well-typed input is the identity). -/
structure EventDraft where
  title : String
  description : Option String
  start : PyDateTime
  «end» : PyDateTime
  timezone : Option String
  location : Option String
  attendees : List Attendee
  reminders : List Reminder
  recurrence : Option Recurrence
  source : Option String
  deriving DecidableEq

def CalendarEvent.toDraft (ev : CalendarEvent) : EventDraft :=
  ⟨ev.title, ev.description, ev.start, ev.«end», some ev.timezone,
   ev.location, ev.attendees, ev.reminders, ev.recurrence, ev.source⟩

def DEFAULT_TZ : String := "Europe/Riga"

def DEFAULT_EVENT_DURATION : Int := 60

def CONFLICT_SHIFT : Int := 15

def MAX_SHIFT_ATTEMPTS : Nat := 8

/-- Python string truthiness: `none` and `""` are falsy. -/
def strTruthy : Option String → Option String
  | none => none
  | some s => if s = "" then none else some s

/-- `tz_name = timezone or getattr(draft, "timezone", None) or DEFAULT_TZ`
(src/app/utils/repair.py line 28). -/
def tz_name (timezone : Option String) (draftTz : Option String) : String :=
  match strTruthy timezone with
  | some s => s
  | none =>
    match strTruthy draftTz with
    | some s => s
    | none => DEFAULT_TZ

/-- `_ensure_timezone` (src/app/utils/repair.py line 80): a naive datetime
gets the zone attached (`replace(tzinfo=tz)`, wall clock kept); an aware one
is converted (`astimezone(tz)`, instant kept). -/
def _ensure_timezone (dt : PyDateTime) (off : Int) : PyDateTime :=
  match dt.tz with
  | none => ⟨dt.wall, some off⟩
  | some o => ⟨dt.wall - o + off, some off⟩

/-- `_has_conflict` (src/app/utils/repair.py line 96):
`start < busy_end and end > busy_start` for some busy slot. -/
def _has_conflict (start «end» : PyDateTime)
    (busy_slots : List (PyDateTime × PyDateTime)) : Bool :=
  busy_slots.any fun b =>
    decide (start.toInstant < b.2.toInstant) &&
    decide («end».toInstant > b.1.toInstant)

/-- One `ev.start += CONFLICT_SHIFT; ev.end += CONFLICT_SHIFT` step. -/
def shiftOnce (ev : CalendarEvent) : CalendarEvent :=
  { ev with start := addMinutes ev.start CONFLICT_SHIFT,
            «end» := addMinutes ev.«end» CONFLICT_SHIFT }

/-- The event shifted by `k` increments of `CONFLICT_SHIFT` minutes. -/
def shiftBy (k : Nat) (ev : CalendarEvent) : CalendarEvent :=
  { ev with start := addMinutes ev.start (CONFLICT_SHIFT * (k : Int)),
            «end» := addMinutes ev.«end» (CONFLICT_SHIFT * (k : Int)) }

/-- The `for _ in range(MAX_SHIFT_ATTEMPTS)` loop body of
`_shift_to_free_slot`, with the remaining attempt count made explicit. -/
def shiftLoop (busy_slots : List (PyDateTime × PyDateTime)) :
    Nat → CalendarEvent → CalendarEvent
  | 0, ev => ev
  | Nat.succ n, ev =>
    if _has_conflict ev.start ev.«end» busy_slots then
      shiftLoop busy_slots n (shiftOnce ev)
    else ev

/-- `_shift_to_free_slot` (src/app/utils/repair.py line 86). -/
def _shift_to_free_slot (ev : CalendarEvent)
    (busy_slots : List (PyDateTime × PyDateTime)) : CalendarEvent :=
  shiftLoop busy_slots MAX_SHIFT_ATTEMPTS ev

/-- The offset `normalize_event` ends up attaching: the resolved name when
the zone database knows it, otherwise the default zone. -/
def eff_offset (db : String → Option Int) (timezone draftTz : Option String) :
    Option Int :=
  match db (tz_name timezone draftTz) with
  | some off => some off
  | none => db DEFAULT_TZ

/-- `normalize_event` (src/app/utils/repair.py line 19).  `db` is the host
zone database, `existing_busy` the busy slots (`None` becomes `[]`).  The
`.error` branches model the uncaught exceptions: a missing default zone
(`ZoneInfoNotFoundError` raised inside the `except` handler) and a
`ValidationError` out of the `CalendarEvent` constructor. -/
def normalize_event (db : String → Option Int) (draft : EventDraft)
    (timezone : Option String)
    (existing_busy : List (PyDateTime × PyDateTime)) :
    Except String CalendarEvent :=
  let tzn := tz_name timezone draft.timezone
  let resolved : Except String (Int × String) :=
    match db tzn with
    | some off => .ok (off, tzn)
    | none =>
      match db DEFAULT_TZ with
      | some off => .ok (off, DEFAULT_TZ)
      | none => .error "ZoneInfoNotFoundError"
  match resolved with
  | .error msg => .error msg
  | .ok (off, tzn2) =>
    let start := _ensure_timezone draft.start off
    let end1 := _ensure_timezone draft.«end» off
    let end2 :=
      if end1.toInstant ≤ start.toInstant then
        addMinutes start DEFAULT_EVENT_DURATION
      else end1
    let reminders :=
      if draft.reminders.isEmpty then [Reminder.default] else draft.reminders
    match mkCalendarEvent draft.title draft.description start end2 tzn2
        draft.location draft.attendees reminders draft.recurrence
        draft.source with
    | .error msg => .error msg
    | .ok ev =>
      .ok (if existing_busy.isEmpty then ev
           else _shift_to_free_slot ev existing_busy)

/-- `_unique_reminders` (src/app/services/google_calendar.py line 259),
with the `seen` set of `(method, minutes_before)` keys made an explicit
accumulator. -/
def _unique_reminders_aux (seen : List (ReminderMethod × Int)) :
    List Reminder → List Reminder
  | [] => []
  | r :: rs =>
    if (r.method, r.minutes_before) ∈ seen then
      _unique_reminders_aux seen rs
    else r :: _unique_reminders_aux ((r.method, r.minutes_before) :: seen) rs

def _unique_reminders (reminders : List Reminder) : List Reminder :=
  _unique_reminders_aux [] reminders

inductive DecisionKind where
  | create
  | update
  | skip
  deriving DecidableEq

structure CommitDecision where
  kind : DecisionKind
  reason : Option String
  deriving DecidableEq

structure CommitPlanItem where
  event : CalendarEvent
  decision : CommitDecision
  deriving DecidableEq

structure CommitPlan where
  items : List CommitPlanItem
  trace_id : String
  deriving DecidableEq

structure CommitResult where
  created : Nat
  updated : Nat
  skipped : Nat
  errors : List String
  trace_id : String
  deriving DecidableEq

/-- The `for item in plan.items` loop of `SGRController.commit`
(src/app/sgr.py line 51).  The calendar backend is an external collaborator;
`cal i` is the outcome of the backend call made while processing item `i`
(`create_event` or `update_event`; `Exception` text on failure).  A `skip`
item makes no backend call.  A failed call reaches the `except` handler
before the bucket increment, so it only appends the message. -/
def commitLoop (cal : Nat → Except String Unit) :
    Nat → List CommitPlanItem → Nat × Nat × Nat × List String
  | _, [] => (0, 0, 0, [])
  | i, item :: rest =>
    match item.decision.kind, commitLoop cal (i + 1) rest with
    | .create, (c, u, s, es) =>
      match cal i with
      | .ok _ => (c + 1, u, s, es)
      | .error msg => (c, u, s, msg :: es)
    | .update, (c, u, s, es) =>
      match cal i with
      | .ok _ => (c, u + 1, s, es)
      | .error msg => (c, u, s, msg :: es)
    | .skip, (c, u, s, es) => (c, u, s + 1, es)

/-- `SGRController.commit` (src/app/sgr.py line 51): runs the loop and wraps
the tallies in a `CommitResult` carrying the plan's trace id. -/
def commit (cal : Nat → Except String Unit) (plan : CommitPlan) :
    CommitResult :=
  match commitLoop cal 0 plan.items with
  | (c, u, s, es) => ⟨c, u, s, es, plan.trace_id⟩

/-- The `start`/`end` value of one item returned by `list_between`: either a
plain ISO string, an object whose `dateTime`/`date` entries (strings when
present) are consulted, or something of neither shape (absent key, `None`,
non-string junk). -/
inductive SlotField where
  | fstr (s : String)
  | fobj (dateTime : Option String) (date : Option String)
  | fnone
  deriving DecidableEq

structure SlotPayload where
  start : SlotField
  «end» : SlotField
  deriving DecidableEq

/-- Python's `value.replace("Z", "+00:00")`: every occurrence of the
character `Z` becomes `+00:00`. -/
def replaceZ (s : String) : String :=
  String.mk (s.data.foldr
    (fun c acc =>
      if c = 'Z' then '+' :: '0' :: '0' :: ':' :: '0' :: '0' :: acc
      else c :: acc)
    [])

/-- `_coerce_datetime` (src/app/sgr.py line 136): on a dict take
`get("dateTime") or get("date")`; on a string, turn `Z` into `+00:00`,
parse with `datetime.fromisoformat` (the abstract `parse`), and attach
`tzinfo` when the parse came out naive and a zone is at hand; anything else
is `None`. -/
def _coerce_datetime (parse : String → Option PyDateTime)
    (tzinfo : Option Int) (value : SlotField) : Option PyDateTime :=
  let sval : Option String :=
    match value with
    | .fstr s => some s
    | .fobj dateTime date =>
      match strTruthy dateTime with
      | some s => some s
      | none => date
    | .fnone => none
  match sval with
  | none => none
  | some s =>
    match parse (replaceZ s) with
    | none => none
    | some dt =>
      if dt.tz.isNone && tzinfo.isSome then some ⟨dt.wall, tzinfo⟩
      else some dt

/-- `_parse_slot` (src/app/sgr.py line 120): `None` (or a falsy payload)
gives `None`; otherwise both bounds must coerce, else the entry is dropped. -/
def _parse_slot (parse : String → Option PyDateTime) (tzinfo : Option Int)
    (payload : Option SlotPayload) : Option (PyDateTime × PyDateTime) :=
  match payload with
  | none => none
  | some p =>
    match _coerce_datetime parse tzinfo p.start,
        _coerce_datetime parse tzinfo p.«end» with
    | some s, some e => some (s, e)
    | _, _ => none

/-- The list comprehension of `SGRController._busy_slots`
(src/app/sgr.py line 97): parse every raw item and keep the non-`None`
slots. -/
def _busy_slots_of (parse : String → Option PyDateTime) (tzinfo : Option Int)
    (raw : List (Option SlotPayload)) : List (PyDateTime × PyDateTime) :=
  (raw.map (_parse_slot parse tzinfo)).foldr
    (fun o acc =>
      match o with
      | some slot => slot :: acc
      | none => acc)
    []

/-- The part of `normalize_event` after the timezone resolution, with the
resolved offset `off` and recorded name `tzn2` made explicit. -/
def normalize_stage2 (off : Int) (tzn2 : String) (draft : EventDraft)
    (existing_busy : List (PyDateTime × PyDateTime)) :
    Except String CalendarEvent :=
  let start := _ensure_timezone draft.start off
  let end1 := _ensure_timezone draft.«end» off
  let end2 :=
    if end1.toInstant ≤ start.toInstant then
      addMinutes start DEFAULT_EVENT_DURATION
    else end1
  let reminders :=
    if draft.reminders.isEmpty then [Reminder.default] else draft.reminders
  match mkCalendarEvent draft.title draft.description start end2 tzn2
      draft.location draft.attendees reminders draft.recurrence
      draft.source with
  | .error msg => .error msg
  | .ok ev =>
    .ok (if existing_busy.isEmpty then ev
         else _shift_to_free_slot ev existing_busy)

lemma normalize_event_unfold (db : String → Option Int) (draft : EventDraft)
    (timezone : Option String)
    (busy : List (PyDateTime × PyDateTime)) :
    normalize_event db draft timezone busy =
      match db (tz_name timezone draft.timezone) with
      | some off => normalize_stage2 off (tz_name timezone draft.timezone)
          draft busy
      | none =>
        match db DEFAULT_TZ with
        | some off => normalize_stage2 off DEFAULT_TZ draft busy
        | none => .error "ZoneInfoNotFoundError" := by
  cases hdb : db (tz_name timezone draft.timezone) with
  | some off => simp [normalize_event, normalize_stage2, hdb]
  | none =>
    cases hdef : db DEFAULT_TZ with
    | some off => simp [normalize_event, normalize_stage2, hdb, hdef]
    | none => simp [normalize_event, normalize_stage2, hdb, hdef]

/-! ### Helper lemmas about datetimes and timezone resolution -/

lemma addMinutes_zero (d : PyDateTime) : addMinutes d 0 = d := by
  cases d; simp [addMinutes]

lemma addMinutes_tz (d : PyDateTime) (n : Int) : (addMinutes d n).tz = d.tz :=
  rfl

lemma toInstant_addMinutes (d : PyDateTime) (n : Int) :
    (addMinutes d n).toInstant = d.toInstant + n := by
  cases d with
  | mk w tz =>
    cases tz with
    | none => simp [addMinutes, PyDateTime.toInstant]
    | some o => simp [addMinutes, PyDateTime.toInstant]; ring

lemma ensure_timezone_tz (d : PyDateTime) (off : Int) :
    (_ensure_timezone d off).tz = some off := by
  cases d with
  | mk w tz => cases tz <;> rfl

lemma ensure_timezone_self (d : PyDateTime) (off : Int)
    (h : d.tz = some off) : _ensure_timezone d off = d := by
  cases d with
  | mk w tz =>
    simp only at h
    subst h
    simp [_ensure_timezone]

lemma strTruthy_ne_empty {x : Option String} {s : String}
    (h : strTruthy x = some s) : s ≠ "" := by
  cases x with
  | none => simp [strTruthy] at h
  | some t =>
    by_cases ht : t = ""
    · simp [strTruthy, ht] at h
    · simp [strTruthy, ht] at h
      subst h
      exact ht

lemma tz_name_ne_empty (a b : Option String) : tz_name a b ≠ "" := by
  unfold tz_name
  cases h1 : strTruthy a with
  | some s => exact strTruthy_ne_empty h1
  | none =>
    cases h2 : strTruthy b with
    | some s => exact strTruthy_ne_empty h2
    | none => decide

lemma tz_name_of_ne_empty (s : String) (b : Option String) (h : s ≠ "") :
    tz_name (some s) b = s := by
  simp [tz_name, strTruthy, h]

/-- The `start` value computed inside `normalize_event`. -/
def norm_start (off : Int) (draft : EventDraft) : PyDateTime :=
  _ensure_timezone draft.start off

/-- The `end` value computed inside `normalize_event`, after the
non-positive-duration repair. -/
def norm_end (off : Int) (draft : EventDraft) : PyDateTime :=
  let start := _ensure_timezone draft.start off
  let end1 := _ensure_timezone draft.«end» off
  if end1.toInstant ≤ start.toInstant then
    addMinutes start DEFAULT_EVENT_DURATION
  else end1

/-- The `reminders` value computed inside `normalize_event`. -/
def norm_reminders (draft : EventDraft) : List Reminder :=
  if draft.reminders.isEmpty then [Reminder.default] else draft.reminders

/-- The event `normalize_event` hands to the conflict resolver. -/
def norm_core (off : Int) (tzn2 : String) (draft : EventDraft) :
    CalendarEvent :=
  ⟨draft.title, draft.description, norm_start off draft, norm_end off draft,
   tzn2, draft.location, draft.attendees, norm_reminders draft,
   draft.recurrence, draft.source⟩

lemma norm_end_gt (off : Int) (draft : EventDraft) :
    (norm_start off draft).toInstant < (norm_end off draft).toInstant := by
  by_cases h : (_ensure_timezone draft.«end» off).toInstant ≤
      (_ensure_timezone draft.start off).toInstant
  · simp only [norm_start, norm_end, if_pos h, toInstant_addMinutes,
      DEFAULT_EVENT_DURATION]
    omega
  · simp only [norm_start, norm_end, if_neg h]
    omega

lemma normalize_stage2_eq (off : Int) (tzn2 : String) (draft : EventDraft)
    (busy : List (PyDateTime × PyDateTime)) :
    normalize_stage2 off tzn2 draft busy =
      .ok (if busy.isEmpty then norm_core off tzn2 draft
           else _shift_to_free_slot (norm_core off tzn2 draft) busy) := by
  by_cases hrep : (_ensure_timezone draft.«end» off).toInstant ≤
      (_ensure_timezone draft.start off).toInstant
  · have h2 : ¬ ((addMinutes (_ensure_timezone draft.start off)
        DEFAULT_EVENT_DURATION).toInstant ≤
          (_ensure_timezone draft.start off).toInstant) := by
      simp only [toInstant_addMinutes, DEFAULT_EVENT_DURATION]
      omega
    simp only [normalize_stage2, mkCalendarEvent, norm_core, norm_start,
      norm_end, norm_reminders, if_pos hrep, if_neg h2]
  · simp only [normalize_stage2, mkCalendarEvent, norm_core, norm_start,
      norm_end, norm_reminders, if_neg hrep]

/-! ### Helper lemmas about the conflict resolver -/

lemma shiftBy_zero (ev : CalendarEvent) : shiftBy 0 ev = ev := by
  cases ev with
  | mk t d s e tz l a r rec src =>
    cases s; cases e
    simp [shiftBy, addMinutes]

lemma shiftBy_shiftOnce (k : Nat) (ev : CalendarEvent) :
    shiftBy k (shiftOnce ev) = shiftBy (k + 1) ev := by
  cases ev with
  | mk t d s e tz l a r rec src =>
    cases s; cases e
    simp [shiftBy, shiftOnce, addMinutes, CONFLICT_SHIFT]
    constructor <;> omega

/-- Full characterisation of the probing loop: it returns the event shifted
`k` times where `k` is the least probe position free of conflicts, capped at
the fuel. -/
lemma shiftLoop_spec (busy : List (PyDateTime × PyDateTime)) (fuel : Nat) :
    ∀ ev : CalendarEvent, ∃ k : Nat, k ≤ fuel ∧
      shiftLoop busy fuel ev = shiftBy k ev ∧
      (∀ j, j < k →
        _has_conflict (shiftBy j ev).start (shiftBy j ev).«end» busy = true) ∧
      (k < fuel →
        _has_conflict (shiftBy k ev).start (shiftBy k ev).«end» busy = false) := by
  induction fuel with
  | zero =>
    intro ev
    refine ⟨0, Nat.le_refl _, by simp [shiftLoop, shiftBy_zero], ?_, ?_⟩
    · intro j hj; omega
    · intro h; omega
  | succ n ih =>
    intro ev
    cases hc : _has_conflict ev.start ev.«end» busy with
    | true =>
      obtain ⟨k, hk, heq, hall, hfree⟩ := ih (shiftOnce ev)
      refine ⟨k + 1, by omega, ?_, ?_, ?_⟩
      · rw [shiftLoop, hc, if_pos rfl, heq, shiftBy_shiftOnce]
      · intro j hj
        match j with
        | 0 => simpa [shiftBy_zero] using hc
        | Nat.succ j' =>
          have h := hall j' (by omega)
          rwa [shiftBy_shiftOnce] at h
      · intro h
        have h2 := hfree (by omega)
        rwa [shiftBy_shiftOnce] at h2
    | false =>
      refine ⟨0, by omega, ?_, ?_, ?_⟩
      · rw [shiftLoop, hc, if_neg (by simp), shiftBy_zero]
      · intro j hj; omega
      · intro _; simpa [shiftBy_zero] using hc

/-- What `normalize_stage2` produces: some shift of the core event, with the
shift count zero when no busy slots were supplied. -/
lemma normalize_stage2_spec (off : Int) (tzn2 : String) (draft : EventDraft)
    (busy : List (PyDateTime × PyDateTime)) :
    ∃ (ev : CalendarEvent) (k : Nat),
      normalize_stage2 off tzn2 draft busy = .ok ev ∧
      (busy = [] → k = 0) ∧
      ev.timezone = tzn2 ∧
      ev.start = addMinutes (norm_start off draft)
        (CONFLICT_SHIFT * (k : Int)) ∧
      ev.«end» = addMinutes (norm_end off draft)
        (CONFLICT_SHIFT * (k : Int)) ∧
      ev.start.toInstant < ev.«end».toInstant ∧
      ev.title = draft.title ∧
      ev.reminders = norm_reminders draft := by
  rw [normalize_stage2_eq]
  cases busy with
  | nil =>
    refine ⟨norm_core off tzn2 draft, 0, by simp, fun _ => rfl, rfl, ?_, ?_,
      ?_, rfl, rfl⟩
    · simp [norm_core, addMinutes_zero]
    · simp [norm_core, addMinutes_zero]
    · simpa [norm_core] using norm_end_gt off draft
  | cons b bs =>
    obtain ⟨k, -, heq, -, -⟩ :=
      shiftLoop_spec (b :: bs) MAX_SHIFT_ATTEMPTS (norm_core off tzn2 draft)
    refine ⟨shiftBy k (norm_core off tzn2 draft), k, ?_, ?_, ?_, ?_, ?_, ?_,
      ?_, ?_⟩
    · simp [_shift_to_free_slot, heq]
    · intro h; cases h
    · simp [shiftBy, norm_core]
    · simp [shiftBy, norm_core]
    · simp [shiftBy, norm_core]
    · have := norm_end_gt off draft
      simp only [shiftBy, norm_core, addMinutes, PyDateTime.toInstant] at *
      cases hs : (norm_start off draft).tz <;>
        cases he : (norm_end off draft).tz <;>
        simp [hs, he, PyDateTime.toInstant] at this ⊢ <;> omega
    · simp [shiftBy, norm_core]
    · simp [shiftBy, norm_core]

/-- What `normalize_event` produces, given that the effective zone resolves
to offset `off`: it succeeds, records the resolved-or-default zone name, and
returns the repaired core event shifted some number of times (zero when no
busy slots were supplied). -/
lemma normalize_event_spec (db : String → Option Int) (draft : EventDraft)
    (timezone : Option String) (busy : List (PyDateTime × PyDateTime))
    (off : Int)
    (hoff : eff_offset db timezone draft.timezone = some off) :
    ∃ (ev : CalendarEvent) (k : Nat),
      normalize_event db draft timezone busy = .ok ev ∧
      (busy = [] → k = 0) ∧
      ev.timezone =
        (if (db (tz_name timezone draft.timezone)).isSome
         then tz_name timezone draft.timezone else DEFAULT_TZ) ∧
      db ev.timezone = some off ∧
      ev.start = addMinutes (norm_start off draft)
        (CONFLICT_SHIFT * (k : Int)) ∧
      ev.«end» = addMinutes (norm_end off draft)
        (CONFLICT_SHIFT * (k : Int)) ∧
      ev.start.toInstant < ev.«end».toInstant ∧
      ev.title = draft.title ∧
      ev.reminders = norm_reminders draft := by
  rw [normalize_event_unfold]
  cases hdb : db (tz_name timezone draft.timezone) with
  | some o =>
    have hoo : o = off := by
      unfold eff_offset at hoff
      rw [hdb] at hoff
      exact Option.some.inj hoff
    subst hoo
    obtain ⟨ev, k, h1, h2, h3, h4, h5, h6, h7, h8⟩ :=
      normalize_stage2_spec o (tz_name timezone draft.timezone) draft busy
    exact ⟨ev, k, h1, h2, by simp [hdb, h3], by rw [h3, hdb], h4, h5, h6,
      h7, h8⟩
  | none =>
    have hdef : db DEFAULT_TZ = some off := by
      unfold eff_offset at hoff
      rw [hdb] at hoff
      exact hoff
    obtain ⟨ev, k, h1, h2, h3, h4, h5, h6, h7, h8⟩ :=
      normalize_stage2_spec off DEFAULT_TZ draft busy
    refine ⟨ev, k, ?_, h2, by simp [hdb, h3], by rw [h3, hdef], h4, h5, h6,
      h7, h8⟩
    simp only [hdef]
    exact h1

lemma norm_start_tz (off : Int) (draft : EventDraft) :
    (norm_start off draft).tz = some off :=
  ensure_timezone_tz _ _

lemma norm_end_tz (off : Int) (draft : EventDraft) :
    (norm_end off draft).tz = some off := by
  simp only [norm_end]
  split
  · rw [addMinutes_tz]; exact ensure_timezone_tz _ _
  · exact ensure_timezone_tz _ _

/-- A sample zone database for witness instantiations: the host knows
Europe/Riga (+180 minutes) and UTC, nothing else. -/
def sampleDb : String → Option Int := fun s =>
  if s = "Europe/Riga" then some 180
  else if s = "UTC" then some 0
  else none

/-- A sample draft mirroring the repository's own test fixture: naive 9:00
start, `end == start`, empty-string timezone, no reminders. -/
def sampleDraft : EventDraft :=
  ⟨"Deep Work", none, ⟨540, none⟩, ⟨540, none⟩, some "", none, [], [],
   none, none⟩

/-- Claim C3: a draft whose end is less than or equal to its start after
timezone attachment is repaired, not rejected: `normalize_event` succeeds
and the returned Event's end equals its start plus one hour
(`DEFAULT_EVENT_DURATION` = 60 minutes), both as an instant and on the wall
clock. -/
theorem normalize_repairs_nonpositive_duration
    (db : String → Option Int) (draft : EventDraft)
    (timezone : Option String) (busy : List (PyDateTime × PyDateTime))
    (off : Int)
    (hoff : eff_offset db timezone draft.timezone = some off)
    (hle : (_ensure_timezone draft.«end» off).toInstant ≤
      (_ensure_timezone draft.start off).toInstant) :
    ∃ ev, normalize_event db draft timezone busy = .ok ev ∧
      ev.«end».toInstant = ev.start.toInstant + DEFAULT_EVENT_DURATION ∧
      ev.«end».wall = ev.start.wall + DEFAULT_EVENT_DURATION := by
  obtain ⟨ev, k, h1, -, -, -, h5, h6, -, -, -⟩ :=
    normalize_event_spec db draft timezone busy off hoff
  have hne : norm_end off draft =
      addMinutes (norm_start off draft) DEFAULT_EVENT_DURATION := by
    simp [norm_end, norm_start, if_pos hle]
  refine ⟨ev, h1, ?_, ?_⟩
  · rw [h6, hne, h5]
    simp only [toInstant_addMinutes]
    ring
  · rw [h6, hne, h5]
    simp only [addMinutes]
    ring

/-- Witness for C3: the sample draft (end = start) normalizes to a one-hour
event. -/
theorem normalize_repairs_nonpositive_duration_witness :
    ∃ ev, normalize_event sampleDb sampleDraft none [] = .ok ev ∧
      ev.«end».toInstant = ev.start.toInstant + DEFAULT_EVENT_DURATION ∧
      ev.«end».wall = ev.start.wall + DEFAULT_EVENT_DURATION :=
  normalize_repairs_nonpositive_duration sampleDb sampleDraft none [] 180
    (by decide) (by decide)

/-- Claim C7: the effective timezone is the explicit override when supplied
(non-empty), else the draft's own timezone when non-empty, else the
process-wide default; when the resolved name is unknown to the zone
database the Event records the default zone instead, and normalization
returns successfully rather than raising. -/
theorem normalize_timezone_resolution_and_fallback
    (db : String → Option Int) (draft : EventDraft)
    (timezone : Option String) (busy : List (PyDateTime × PyDateTime))
    (d0 : Int) (hdef : db DEFAULT_TZ = some d0) :
    (∀ (s : String) (dtz : Option String), s ≠ "" →
      tz_name (some s) dtz = s) ∧
    (∀ dtz : String, dtz ≠ "" → tz_name none (some dtz) = dtz) ∧
    (∀ dtz : Option String, tz_name (some "") dtz = tz_name none dtz) ∧
    tz_name none none = DEFAULT_TZ ∧
    ∃ ev, normalize_event db draft timezone busy = .ok ev ∧
      ev.timezone =
        (if (db (tz_name timezone draft.timezone)).isSome
         then tz_name timezone draft.timezone else DEFAULT_TZ) := by
  refine ⟨fun s dtz h => tz_name_of_ne_empty s dtz h,
    fun dtz h => by simp [tz_name, strTruthy, h],
    fun dtz => by simp [tz_name, strTruthy],
    by simp [tz_name, strTruthy], ?_⟩
  have hoffE : ∃ off, eff_offset db timezone draft.timezone = some off := by
    unfold eff_offset
    cases hdb : db (tz_name timezone draft.timezone) with
    | some o => exact ⟨o, rfl⟩
    | none => exact ⟨d0, hdef⟩
  obtain ⟨off, hoff⟩ := hoffE
  obtain ⟨ev, k, h1, -, h3, -, -, -, -, -, -⟩ :=
    normalize_event_spec db draft timezone busy off hoff
  exact ⟨ev, h1, h3⟩

/-- Witness for C7: a draft carrying an unknown zone name falls back to the
default. -/
theorem normalize_timezone_resolution_and_fallback_witness :
    (∀ (s : String) (dtz : Option String), s ≠ "" →
      tz_name (some s) dtz = s) ∧
    (∀ dtz : String, dtz ≠ "" → tz_name none (some dtz) = dtz) ∧
    (∀ dtz : Option String, tz_name (some "") dtz = tz_name none dtz) ∧
    tz_name none none = DEFAULT_TZ ∧
    ∃ ev, normalize_event sampleDb
        ⟨"Trip", none, ⟨540, none⟩, ⟨600, none⟩, some "Mars/Olympus", none,
         [], [], none, none⟩ none [] = .ok ev ∧
      ev.timezone =
        (if (sampleDb (tz_name none (some "Mars/Olympus"))).isSome
         then tz_name none (some "Mars/Olympus") else DEFAULT_TZ) :=
  normalize_timezone_resolution_and_fallback sampleDb
    ⟨"Trip", none, ⟨540, none⟩, ⟨600, none⟩, some "Mars/Olympus", none, [],
     [], none, none⟩ none [] 180 (by decide)

/-- Claim C8: normalization is idempotent on its own output — re-normalizing
an Event it produced, with that Event's own timezone and an empty busy set,
succeeds and returns identical start, end and timezone values. -/
theorem normalize_idempotent
    (db : String → Option Int) (draft : EventDraft)
    (timezone : Option String) (busy : List (PyDateTime × PyDateTime))
    (d0 : Int) (n : CalendarEvent)
    (hdef : db DEFAULT_TZ = some d0)
    (hn : normalize_event db draft timezone busy = .ok n) :
    ∃ m, normalize_event db n.toDraft (some n.timezone) [] = .ok m ∧
      m.start = n.start ∧ m.«end» = n.«end» ∧ m.timezone = n.timezone := by
  have hoffE : ∃ off, eff_offset db timezone draft.timezone = some off := by
    unfold eff_offset
    cases hdb : db (tz_name timezone draft.timezone) with
    | some o => exact ⟨o, rfl⟩
    | none => exact ⟨d0, hdef⟩
  obtain ⟨off, hoff⟩ := hoffE
  obtain ⟨ev, k, h1, h2, h3, h4, h5, h6, h7, h8, h9⟩ :=
    normalize_event_spec db draft timezone busy off hoff
  rw [hn] at h1
  obtain rfl : n = ev := Except.ok.inj h1
  have htzne : n.timezone ≠ "" := by
    rw [h3]
    split
    · exact tz_name_ne_empty _ _
    · decide
  have hstz : n.start.tz = some off := by
    rw [h5, addMinutes_tz]
    exact norm_start_tz off draft
  have hetz : n.«end».tz = some off := by
    rw [h6, addMinutes_tz]
    exact norm_end_tz off draft
  have hoff2 : eff_offset db (some n.timezone) n.toDraft.timezone =
      some off := by
    unfold eff_offset
    rw [tz_name_of_ne_empty _ _ htzne, h4]
  obtain ⟨m, k2, g1, g2, g3, g4, g5, g6, g7, g8, g9⟩ :=
    normalize_event_spec db n.toDraft (some n.timezone) [] off hoff2
  have hk2 : k2 = 0 := g2 rfl
  subst hk2
  have hs : norm_start off n.toDraft = n.start :=
    ensure_timezone_self _ _ hstz
  have hrepne : ¬ ((_ensure_timezone n.toDraft.«end» off).toInstant ≤
      (_ensure_timezone n.toDraft.start off).toInstant) := by
    have e1 : _ensure_timezone n.toDraft.«end» off = n.«end» :=
      ensure_timezone_self _ _ hetz
    have e2 : _ensure_timezone n.toDraft.start off = n.start :=
      ensure_timezone_self _ _ hstz
    rw [e1, e2]
    omega
  have he : norm_end off n.toDraft = n.«end» := by
    simp only [norm_end]
    rw [if_neg hrepne]
    exact ensure_timezone_self _ _ hetz
  refine ⟨m, g1, ?_, ?_, ?_⟩
  · rw [g5, hs]
    simp [addMinutes_zero]
  · rw [g6, he]
    simp [addMinutes_zero]
  · rw [g3, tz_name_of_ne_empty _ _ htzne]
    simp [h4]

/-- Witness for C8: re-normalizing the Event the sample draft produces is
the identity on start, end and timezone. -/
theorem normalize_idempotent_witness :
    ∃ m, normalize_event sampleDb
        (CalendarEvent.toDraft
          ⟨"Deep Work", none, ⟨540, some 180⟩, ⟨600, some 180⟩,
           "Europe/Riga", none, [], [Reminder.default], none, none⟩)
        (some "Europe/Riga") [] = .ok m ∧
      m.start = PyDateTime.mk 540 (some 180) ∧
      m.«end» = PyDateTime.mk 600 (some 180) ∧
      m.timezone = "Europe/Riga" :=
  normalize_idempotent sampleDb sampleDraft none [] 180
    ⟨"Deep Work", none, ⟨540, some 180⟩, ⟨600, some 180⟩, "Europe/Riga",
     none, [], [Reminder.default], none, none⟩
    (by decide) rfl

/-- A concrete event (9:00–10:00 Riga wall clock, offset +180 minutes) and a
busy slot occupying the same hour, for witness instantiations. -/
def sampleEvent : CalendarEvent :=
  ⟨"Deep Work", none, ⟨540, some 180⟩, ⟨600, some 180⟩, "Europe/Riga",
   none, [], [Reminder.default], none, none⟩

def sampleBusy : List (PyDateTime × PyDateTime) :=
  [(⟨540, some 180⟩, ⟨600, some 180⟩)]

example : _shift_to_free_slot sampleEvent sampleBusy = shiftBy 4 sampleEvent := by
  decide

/-- Claim C2: conflict resolution terminates and never fails — it is a total
function — and with `CONFLICT_SHIFT = 15` minutes and
`MAX_SHIFT_ATTEMPTS = 8` it returns the input event shifted `k` times for
the least `k ∈ 0..7` whose probed position overlaps no busy interval (the
overlap predicate `_has_conflict` being `busy.start < event.end AND
busy.end > event.start`), and the event shifted 8 times when all 8 probed
positions conflict, even if that final position still conflicts. -/
theorem shift_to_free_slot_least_free_probe (ev : CalendarEvent)
    (busy : List (PyDateTime × PyDateTime)) :
    ∃ k : Nat, k ≤ MAX_SHIFT_ATTEMPTS ∧
      _shift_to_free_slot ev busy = shiftBy k ev ∧
      (∀ j, j < k →
        _has_conflict (shiftBy j ev).start (shiftBy j ev).«end» busy = true) ∧
      (k < MAX_SHIFT_ATTEMPTS →
        _has_conflict (shiftBy k ev).start (shiftBy k ev).«end» busy = false) :=
  shiftLoop_spec busy MAX_SHIFT_ATTEMPTS ev

/-- Witness for C2 at the concrete 9:00–10:00 event against a 9:00–10:00
busy slot. -/
theorem shift_to_free_slot_least_free_probe_witness :
    ∃ k : Nat, k ≤ MAX_SHIFT_ATTEMPTS ∧
      _shift_to_free_slot sampleEvent sampleBusy = shiftBy k sampleEvent ∧
      (∀ j, j < k →
        _has_conflict (shiftBy j sampleEvent).start
          (shiftBy j sampleEvent).«end» sampleBusy = true) ∧
      (k < MAX_SHIFT_ATTEMPTS →
        _has_conflict (shiftBy k sampleEvent).start
          (shiftBy k sampleEvent).«end» sampleBusy = false) :=
  shift_to_free_slot_least_free_probe sampleEvent sampleBusy

/-- Claim C10: the conflict resolver preserves the event's duration
(`end - start` as instants) and leaves every field other than `start` and
`end` — title, description, timezone, location, attendees, reminders,
recurrence, source — unchanged. -/
theorem shift_to_free_slot_frame (ev : CalendarEvent)
    (busy : List (PyDateTime × PyDateTime)) :
    (_shift_to_free_slot ev busy).«end».toInstant -
        (_shift_to_free_slot ev busy).start.toInstant =
      ev.«end».toInstant - ev.start.toInstant ∧
    (_shift_to_free_slot ev busy).title = ev.title ∧
    (_shift_to_free_slot ev busy).description = ev.description ∧
    (_shift_to_free_slot ev busy).timezone = ev.timezone ∧
    (_shift_to_free_slot ev busy).location = ev.location ∧
    (_shift_to_free_slot ev busy).attendees = ev.attendees ∧
    (_shift_to_free_slot ev busy).reminders = ev.reminders ∧
    (_shift_to_free_slot ev busy).recurrence = ev.recurrence ∧
    (_shift_to_free_slot ev busy).source = ev.source := by
  obtain ⟨k, _, heq, -, -⟩ := shiftLoop_spec busy MAX_SHIFT_ATTEMPTS ev
  rw [_shift_to_free_slot, heq]
  refine ⟨?_, by simp [shiftBy], by simp [shiftBy], by simp [shiftBy],
    by simp [shiftBy], by simp [shiftBy], by simp [shiftBy],
    by simp [shiftBy], by simp [shiftBy]⟩
  simp [shiftBy, addMinutes, PyDateTime.toInstant]
  ring

/-- Claim C1 (counterexample): constructing a `CalendarEvent` with an empty
title and a valid time range succeeds — `title: str` carries no pydantic
constraint, so the claimed `ValidationError` on an empty title never
happens. -/
theorem event_empty_title_accepted :
    mkCalendarEvent "" none ⟨0, none⟩ ⟨60, none⟩ "Europe/Riga" none []
        [Reminder.default] none none =
      .ok ⟨"", none, ⟨0, none⟩, ⟨60, none⟩, "Europe/Riga", none, [],
        [Reminder.default], none, none⟩ :=
  rfl

/-- Claim C1 (amended): constructing a `CalendarEvent` fails with a
`ValidationError` exactly when `end <= start`; the title is not validated,
so every successfully constructed Event satisfies `end > start` but may
have an empty title. -/
theorem event_construction_validates_end_after_start
    (title : String) (description : Option String)
    (start «end» : PyDateTime) (tz : String) (location : Option String)
    (attendees : List Attendee) (reminders : List Reminder)
    (recurrence : Option Recurrence) (source : Option String) :
    ((∃ ev, mkCalendarEvent title description start «end» tz location
        attendees reminders recurrence source = .ok ev) ↔
      start.toInstant < «end».toInstant) ∧
    («end».toInstant ≤ start.toInstant →
      mkCalendarEvent title description start «end» tz location attendees
        reminders recurrence source = .error "end must be after start") ∧
    (∀ ev, mkCalendarEvent title description start «end» tz location
        attendees reminders recurrence source = .ok ev →
      ev.start.toInstant < ev.«end».toInstant ∧ ev.title = title) := by
  by_cases h : «end».toInstant ≤ start.toInstant
  · refine ⟨?_, fun _ => by rw [mkCalendarEvent, if_pos h], ?_⟩
    · constructor
      · rintro ⟨ev, hev⟩
        rw [mkCalendarEvent, if_pos h] at hev
        exact absurd hev (by simp)
      · intro hlt; omega
    · intro ev hev
      rw [mkCalendarEvent, if_pos h] at hev
      exact absurd hev (by simp)
  · refine ⟨?_, fun hle => absurd hle h, ?_⟩
    · constructor
      · intro _; omega
      · intro _
        exact ⟨_, by rw [mkCalendarEvent, if_neg h]⟩
    · intro ev hev
      rw [mkCalendarEvent, if_neg h] at hev
      obtain rfl := Except.ok.inj hev
      exact ⟨by simpa using not_le.mp h, rfl⟩

/-- Witness for C1 (amended) at a concrete valid construction. -/
theorem event_construction_validates_end_after_start_witness :
    ((∃ ev, mkCalendarEvent "Sync" none ⟨0, none⟩ ⟨30, none⟩ "UTC" none []
        [Reminder.default] none none = .ok ev) ↔
      (PyDateTime.mk 0 none).toInstant < (PyDateTime.mk 30 none).toInstant) ∧
    ((PyDateTime.mk 30 none).toInstant ≤ (PyDateTime.mk 0 none).toInstant →
      mkCalendarEvent "Sync" none ⟨0, none⟩ ⟨30, none⟩ "UTC" none []
        [Reminder.default] none none = .error "end must be after start") ∧
    (∀ ev, mkCalendarEvent "Sync" none ⟨0, none⟩ ⟨30, none⟩ "UTC" none []
        [Reminder.default] none none = .ok ev →
      ev.start.toInstant < ev.«end».toInstant ∧ ev.title = "Sync") :=
  event_construction_validates_end_after_start "Sync" none ⟨0, none⟩
    ⟨30, none⟩ "UTC" none [] [Reminder.default] none none

/-- Witness for C10 at the concrete sample event and busy slot. -/
theorem shift_to_free_slot_frame_witness :
    (_shift_to_free_slot sampleEvent sampleBusy).«end».toInstant -
        (_shift_to_free_slot sampleEvent sampleBusy).start.toInstant =
      sampleEvent.«end».toInstant - sampleEvent.start.toInstant ∧
    (_shift_to_free_slot sampleEvent sampleBusy).title = sampleEvent.title ∧
    (_shift_to_free_slot sampleEvent sampleBusy).description =
      sampleEvent.description ∧
    (_shift_to_free_slot sampleEvent sampleBusy).timezone =
      sampleEvent.timezone ∧
    (_shift_to_free_slot sampleEvent sampleBusy).location =
      sampleEvent.location ∧
    (_shift_to_free_slot sampleEvent sampleBusy).attendees =
      sampleEvent.attendees ∧
    (_shift_to_free_slot sampleEvent sampleBusy).reminders =
      sampleEvent.reminders ∧
    (_shift_to_free_slot sampleEvent sampleBusy).recurrence =
      sampleEvent.recurrence ∧
    (_shift_to_free_slot sampleEvent sampleBusy).source =
      sampleEvent.source :=
  shift_to_free_slot_frame sampleEvent sampleBusy

/-! ### Commit accounting -/

lemma commitLoop_counts (cal : Nat → Except String Unit) :
    ∀ (items : List CommitPlanItem) (i : Nat),
      (commitLoop cal i items).1 + (commitLoop cal i items).2.1 +
        (commitLoop cal i items).2.2.1 +
        (commitLoop cal i items).2.2.2.length = items.length := by
  intro items
  induction items with
  | nil => intro i; rfl
  | cons item rest ih =>
    intro i
    have h := ih (i + 1)
    rcases hr : commitLoop cal (i + 1) rest with ⟨c, u, s, es⟩
    rw [hr] at h
    simp only at h
    cases hk : item.decision.kind with
    | create =>
      cases hcal : cal i with
      | ok v => simp [commitLoop, hr, hk, hcal]; omega
      | error m => simp [commitLoop, hr, hk, hcal]; omega
    | update =>
      cases hcal : cal i with
      | ok v => simp [commitLoop, hr, hk, hcal]; omega
      | error m => simp [commitLoop, hr, hk, hcal]; omega
    | skip => simp [commitLoop, hr, hk]; omega

/-- A one-item plan whose single `create` call fails, and the backend that
fails it. -/
def sampleFailingPlan : CommitPlan :=
  ⟨[⟨sampleEvent, ⟨.create, none⟩⟩], "trace-1"⟩

def sampleFailingCal : Nat → Except String Unit := fun _ => .error "boom"

/-- Claim C4 (counterexample): on a one-item plan whose `create` call fails,
every item is processed (with a caught error), yet
`created + updated + skipped = 0 ≠ 1`: the claimed equation
`created + updated + skipped == number of items processed successfully or
with a caught error` does not hold on the code. -/
theorem commit_counts_equation_counterexample :
    (commit sampleFailingCal sampleFailingPlan).created +
        (commit sampleFailingCal sampleFailingPlan).updated +
        (commit sampleFailingCal sampleFailingPlan).skipped = 0 ∧
    (commit sampleFailingCal sampleFailingPlan).errors = ["boom"] ∧
    sampleFailingPlan.items.length = 1 ∧
    (0 : Nat) ≠ 1 :=
  ⟨rfl, rfl, rfl, by decide⟩

/-- Claim C4 (amended): the buckets count only successful items — a failed
create or update increments neither its bucket nor any other, it contributes
its message to `errors` instead — so
`created + updated + skipped + |errors|` equals the number of items
processed. -/
theorem commit_counts_account_for_every_item
    (cal : Nat → Except String Unit) (plan : CommitPlan) :
    (commit cal plan).created + (commit cal plan).updated +
        (commit cal plan).skipped + (commit cal plan).errors.length =
      plan.items.length := by
  have h := commitLoop_counts cal plan.items 0
  rcases hr : commitLoop cal 0 plan.items with ⟨c, u, s, es⟩
  rw [hr] at h
  simp only at h
  simp [commit, hr]
  omega

/-- Witness for C4 (amended) on the failing one-item plan. -/
theorem commit_counts_account_for_every_item_witness :
    (commit sampleFailingCal sampleFailingPlan).created +
        (commit sampleFailingCal sampleFailingPlan).updated +
        (commit sampleFailingCal sampleFailingPlan).skipped +
        (commit sampleFailingCal sampleFailingPlan).errors.length =
      sampleFailingPlan.items.length :=
  commit_counts_account_for_every_item sampleFailingCal sampleFailingPlan

lemma commitLoop_errors (cal : Nat → Except String Unit) :
    ∀ (items : List CommitPlanItem) (i : Nat),
      (commitLoop cal i items).2.2.2 =
        (items.enumFrom i).filterMap (fun p =>
          match p.2.decision.kind with
          | .skip => none
          | _ =>
            match cal p.1 with
            | .ok _ => none
            | .error msg => some msg) := by
  intro items
  induction items with
  | nil => intro i; rfl
  | cons item rest ih =>
    intro i
    have h := ih (i + 1)
    rcases hr : commitLoop cal (i + 1) rest with ⟨c, u, s, es⟩
    rw [hr] at h
    simp only at h
    cases hk : item.decision.kind with
    | create =>
      cases hcal : cal i with
      | ok v => simp [commitLoop, hr, hk, hcal, List.enumFrom, h]
      | error m => simp [commitLoop, hr, hk, hcal, List.enumFrom, h]
    | update =>
      cases hcal : cal i with
      | ok v => simp [commitLoop, hr, hk, hcal, List.enumFrom, h]
      | error m => simp [commitLoop, hr, hk, hcal, List.enumFrom, h]
    | skip => simp [commitLoop, hr, hk, List.enumFrom, h]

/-- A three-item plan (create, failing create, skip) mirroring the spec's
own commit example, with the backend failing only the second item. -/
def sampleMixedPlan : CommitPlan :=
  ⟨[⟨sampleEvent, ⟨.create, none⟩⟩, ⟨sampleEvent, ⟨.create, none⟩⟩,
    ⟨sampleEvent, ⟨.skip, none⟩⟩], "trace-2"⟩

def sampleMixedCal : Nat → Except String Unit := fun i =>
  if i = 1 then .error "backend down" else .ok ()

/-- Claim C5: `commit` is total — it always returns a `CommitResult`, never
propagating an item's backend failure — and its `errors` list is exactly the
message text of every failed create/update call, in plan order: a failure is
caught, recorded, and processing continues with the following items. -/
theorem commit_isolates_item_failures (cal : Nat → Except String Unit)
    (plan : CommitPlan) :
    (commit cal plan).errors =
      plan.items.enum.filterMap (fun p =>
        match p.2.decision.kind with
        | .skip => none
        | _ =>
          match cal p.1 with
          | .ok _ => none
          | .error msg => some msg) := by
  have h := commitLoop_errors cal plan.items 0
  rcases hr : commitLoop cal 0 plan.items with ⟨c, u, s, es⟩
  rw [hr] at h
  simp only at h
  simp [commit, hr, List.enum, h]

/-- Witness for C5 on the mixed three-item plan: only the failing middle
item contributes an error, and the later skip is still processed. -/
theorem commit_isolates_item_failures_witness :
    (commit sampleMixedCal sampleMixedPlan).errors =
      sampleMixedPlan.items.enum.filterMap (fun p =>
        match p.2.decision.kind with
        | .skip => none
        | _ =>
          match sampleMixedCal p.1 with
          | .ok _ => none
          | .error msg => some msg) :=
  commit_isolates_item_failures sampleMixedCal sampleMixedPlan

example : (commit sampleMixedCal sampleMixedPlan).errors = ["backend down"] :=
  rfl

example : commit sampleMixedCal sampleMixedPlan =
    ⟨1, 0, 1, ["backend down"], "trace-2"⟩ :=
  rfl

/-! ### Reminder de-duplication -/

lemma normalize_stage2_reminders (off : Int) (tzn2 : String)
    (draft : EventDraft) (busy : List (PyDateTime × PyDateTime))
    (ev : CalendarEvent)
    (hev : normalize_stage2 off tzn2 draft busy = .ok ev) :
    ev.reminders = norm_reminders draft := by
  rw [normalize_stage2_eq] at hev
  obtain rfl := (Except.ok.inj hev).symm
  cases busy with
  | nil => simp [norm_core]
  | cons b bs =>
    obtain ⟨k, -, heq, -, -⟩ :=
      shiftLoop_spec (b :: bs) MAX_SHIFT_ATTEMPTS (norm_core off tzn2 draft)
    simp only [List.isEmpty_cons, Bool.false_eq_true, if_false,
      _shift_to_free_slot]
    rw [heq]
    simp [shiftBy, norm_core]

lemma normalize_event_reminders (db : String → Option Int)
    (draft : EventDraft) (timezone : Option String)
    (busy : List (PyDateTime × PyDateTime)) (ev : CalendarEvent)
    (hev : normalize_event db draft timezone busy = .ok ev) :
    ev.reminders = norm_reminders draft := by
  rw [normalize_event_unfold] at hev
  cases hdb : db (tz_name timezone draft.timezone) with
  | some o =>
    rw [hdb] at hev
    exact normalize_stage2_reminders o _ draft busy ev hev
  | none =>
    rw [hdb] at hev
    cases hdef : db DEFAULT_TZ with
    | some o =>
      rw [hdef] at hev
      exact normalize_stage2_reminders o _ draft busy ev hev
    | none =>
      rw [hdef] at hev
      exact absurd hev (by simp)

lemma unique_reminders_aux_sublist :
    ∀ (l : List Reminder) (seen : List (ReminderMethod × Int)),
      (_unique_reminders_aux seen l).Sublist l := by
  intro l
  induction l with
  | nil => intro seen; simp [_unique_reminders_aux]
  | cons r rs ih =>
    intro seen
    by_cases h : (r.method, r.minutes_before) ∈ seen
    · simp only [_unique_reminders_aux, if_pos h]
      exact (ih seen).cons r
    · simp only [_unique_reminders_aux, if_neg h]
      exact (ih _).cons₂ r

/-- A draft carrying the spec's duplicated reminder list. -/
def sampleDupDraft : EventDraft :=
  ⟨"Standup", none, ⟨540, none⟩, ⟨600, none⟩, some "UTC", none, [],
   [⟨.popup, 15⟩, ⟨.popup, 15⟩, ⟨.email, 5⟩], none, none⟩

/-- Claim C6 (counterexample): normalizing a draft with reminders
`[popup 15, popup 15, email 5]` keeps all three entries — `normalize_event`
does not de-duplicate, so the claimed output `[popup 15, email 5]` is not
what normalization returns. -/
theorem normalize_does_not_dedup_reminders :
    (normalize_event sampleDb sampleDupDraft none []).toOption.map
        CalendarEvent.reminders =
      some [⟨.popup, 15⟩, ⟨.popup, 15⟩, ⟨.email, 5⟩] ∧
    ([⟨.popup, 15⟩, ⟨.popup, 15⟩, ⟨.email, 5⟩] : List Reminder) ≠
      [⟨.popup, 15⟩, ⟨.email, 5⟩] :=
  ⟨rfl, by decide⟩

/-- Claim C6 (amended): normalization preserves the coerced reminders list
as-is (substituting the single default only when it is empty); the
de-duplication by `(method, minutes_before)` keeping first occurrences in
order is performed by `GoogleCalendarClient._unique_reminders` when the
backend payload is built, and on the spec's example it yields
`[popup 15, email 5]`. -/
theorem reminder_dedup_lives_in_unique_reminders
    (db : String → Option Int) (draft : EventDraft)
    (timezone : Option String) (busy : List (PyDateTime × PyDateTime))
    (ev : CalendarEvent)
    (hev : normalize_event db draft timezone busy = .ok ev) :
    ev.reminders =
      (if draft.reminders.isEmpty then [Reminder.default]
       else draft.reminders) ∧
    _unique_reminders [⟨.popup, 15⟩, ⟨.popup, 15⟩, ⟨.email, 5⟩] =
      [⟨.popup, 15⟩, ⟨.email, 5⟩] ∧
    (∀ l : List Reminder, (_unique_reminders l).Sublist l) :=
  ⟨normalize_event_reminders db draft timezone busy ev hev, rfl,
   fun l => unique_reminders_aux_sublist l []⟩

/-- Witness for C6 (amended): the duplicated-reminders draft, normalized
concretely. -/
theorem reminder_dedup_lives_in_unique_reminders_witness :
    (⟨"Standup", none, ⟨540, some 0⟩, ⟨600, some 0⟩, "UTC", none, [],
      [⟨.popup, 15⟩, ⟨.popup, 15⟩, ⟨.email, 5⟩], none, none⟩ :
        CalendarEvent).reminders =
      (if sampleDupDraft.reminders.isEmpty then [Reminder.default]
       else sampleDupDraft.reminders) ∧
    _unique_reminders [⟨.popup, 15⟩, ⟨.popup, 15⟩, ⟨.email, 5⟩] =
      [⟨.popup, 15⟩, ⟨.email, 5⟩] ∧
    (∀ l : List Reminder, (_unique_reminders l).Sublist l) :=
  reminder_dedup_lives_in_unique_reminders sampleDb sampleDupDraft none []
    ⟨"Standup", none, ⟨540, some 0⟩, ⟨600, some 0⟩, "UTC", none, [],
     [⟨.popup, 15⟩, ⟨.popup, 15⟩, ⟨.email, 5⟩], none, none⟩ rfl

/-! ### Busy-slot parsing -/

lemma busy_slots_of_eq_filterMap (parse : String → Option PyDateTime)
    (tzinfo : Option Int) (raw : List (Option SlotPayload)) :
    _busy_slots_of parse tzinfo raw =
      raw.filterMap (_parse_slot parse tzinfo) := by
  induction raw with
  | nil => rfl
  | cons item rest ih =>
    cases h : _parse_slot parse tzinfo item with
    | none => simp [_busy_slots_of, List.filterMap_cons, h] at ih ⊢; exact ih
    | some slot => simp [_busy_slots_of, List.filterMap_cons, h] at ih ⊢; exact ih

/-- A sample ISO parser and raw payload list for witness instantiations:
the parser knows exactly the two offset-carrying timestamps used below. -/
def sampleParse : String → Option PyDateTime := fun s =>
  if s = "2025-05-20T09:00:00+00:00" then some ⟨540, some 0⟩
  else if s = "2025-05-20T10:00:00+00:00" then some ⟨600, some 0⟩
  else none

def sampleRaw : List (Option SlotPayload) :=
  [some ⟨.fstr "2025-05-20T09:00:00Z", .fstr "2025-05-20T10:00:00Z"⟩,
   some ⟨.fobj (some "2025-05-20T09:00:00Z") none,
         .fobj none (some "2025-05-20T10:00:00Z")⟩,
   some ⟨.fnone, .fstr "2025-05-20T10:00:00Z"⟩,
   some ⟨.fstr "not a date", .fstr "2025-05-20T10:00:00Z"⟩,
   none]

/-- Claim C9: when busy intervals are built from `list_between` results,
a bound is accepted both as a plain ISO string and as an object carrying a
`dateTime` or `date` field (the two shapes coerce identically), and every
entry whose start or end parses to neither shape is dropped from the busy
set — the parse is total, so a bad entry never fails the batch. -/
theorem busy_slot_parsing_accepts_both_shapes
    (parse : String → Option PyDateTime) (tzinfo : Option Int)
    (raw : List (Option SlotPayload)) :
    _busy_slots_of parse tzinfo raw =
      raw.filterMap (_parse_slot parse tzinfo) ∧
    (∀ (s : String) (d : Option String), s ≠ "" →
      _coerce_datetime parse tzinfo (.fobj (some s) d) =
        _coerce_datetime parse tzinfo (.fstr s)) ∧
    (∀ s : String,
      _coerce_datetime parse tzinfo (.fobj none (some s)) =
        _coerce_datetime parse tzinfo (.fstr s)) ∧
    _coerce_datetime parse tzinfo .fnone = none ∧
    (∀ p : SlotPayload, _coerce_datetime parse tzinfo p.start = none →
      _parse_slot parse tzinfo (some p) = none) ∧
    (∀ p : SlotPayload, _coerce_datetime parse tzinfo p.«end» = none →
      _parse_slot parse tzinfo (some p) = none) := by
  refine ⟨busy_slots_of_eq_filterMap parse tzinfo raw, ?_, ?_, rfl, ?_, ?_⟩
  · intro s d hs
    simp [_coerce_datetime, strTruthy, hs]
  · intro s
    simp [_coerce_datetime, strTruthy]
  · intro p h
    simp [_parse_slot, h]
  · intro p h
    cases hs : _coerce_datetime parse tzinfo p.start with
    | none => simp [_parse_slot, hs]
    | some dt => simp [_parse_slot, hs, h]

/-- Witness for C9 at the sample parser and raw payload list. -/
theorem busy_slot_parsing_accepts_both_shapes_witness :
    _busy_slots_of sampleParse (some 0) sampleRaw =
      sampleRaw.filterMap (_parse_slot sampleParse (some 0)) ∧
    (∀ (s : String) (d : Option String), s ≠ "" →
      _coerce_datetime sampleParse (some 0) (.fobj (some s) d) =
        _coerce_datetime sampleParse (some 0) (.fstr s)) ∧
    (∀ s : String,
      _coerce_datetime sampleParse (some 0) (.fobj none (some s)) =
        _coerce_datetime sampleParse (some 0) (.fstr s)) ∧
    _coerce_datetime sampleParse (some 0) .fnone = none ∧
    (∀ p : SlotPayload,
      _coerce_datetime sampleParse (some 0) p.start = none →
        _parse_slot sampleParse (some 0) (some p) = none) ∧
    (∀ p : SlotPayload,
      _coerce_datetime sampleParse (some 0) p.«end» = none →
        _parse_slot sampleParse (some 0) (some p) = none) :=
  busy_slot_parsing_accepts_both_shapes sampleParse (some 0) sampleRaw

example : _busy_slots_of sampleParse (some 0) sampleRaw =
    [(⟨540, some 0⟩, ⟨600, some 0⟩), (⟨540, some 0⟩, ⟨600, some 0⟩)] := by
  decide
